import Mathlib

/-!
Verification of the BTgym stateful datafeed iterators
(`btgym/datafeed/stateful.py`): the `BTgymSequentialTrial` sliding/expanding
train/test Trial iterator and the `BTgymRandomTrial` i.i.d. Trial iterator.

The Python code works with unbounded integers (row indices, counters) and a
few real-valued quantities (the Beta-annealing schedule, calendar-duration
ratios).  Row/counter arithmetic is embedded over `ℤ`; Python's `int(a / b)`
(true division followed by truncation toward zero) is embedded as
`Int.tdiv`, which agrees with it under exact arithmetic.  The exponential
decay schedule is embedded over `ℝ`, and duration ratios over `ℚ`.

The external collaborators (the pandas dataset, `_sample_interval`) are kept
abstract: a sampled episode is represented by the row interval and Beta-mode
tag the code passes to `_sample_interval`, and the `trial_start_00`
day-boundary lookup (`data.index.get_loc(date, method='nearest')` composed
with the date of a row) is an abstract function `snap` from a row index to
the day-aligned row index.
-/

namespace BTG

/-- Python `int(a / b)` under exact arithmetic: truncation toward zero.
(Python divides by zero with an error; `Int.tdiv a 0 = 0` — none of the
verified configurations divide by zero.) -/
def pyDiv (a b : ℤ) : ℤ := Int.tdiv a b

/-- Python `int(x / 2)`, as used for interval half-widths. -/
def half (x : ℤ) : ℤ := pyDiv x 2

/-- Python `int(q)` for a rational value: truncation toward zero. -/
def ratTrunc (q : ℚ) : ℤ := if q < 0 then ⌈q⌉ else ⌊q⌋

/-- Whether an `Except` computation succeeded. -/
def exceptOk {ε α : Type} : Except ε α → Bool
  | .ok _ => true
  | .error _ => false

/-- The error payload of a failed `Except` computation, if any. -/
def exceptErr {ε α : Type} : Except ε α → Option ε
  | .ok _ => none
  | .error e => some e

/-- Kind of a drawn episode: `False`/train or `True`/test in the Python
metadata. -/
inductive SampleKind where
  | train
  | test
deriving DecidableEq

/-- The observable content of one `_sample_interval` call made by
`_trial_sample_sequential`: the row-index interval passed to the sampler
together with the metadata returned to `sample()`
(`self.trial_num, type, sample_num`). -/
structure Sample where
  lo : ℤ
  hi : ℤ
  kind : SampleKind
  trial_num : ℤ
  sample_num : ℤ
deriving DecidableEq

/-- Result of one `_trial_sample_sequential` call: an episode, or the
`AssertionError('Trial's sequence exhausted.')` raised at line 402. -/
inductive StepResult where
  | ok (s : Sample)
  | exhausted
deriving DecidableEq

/-- `true` iff the call returned a test episode. -/
def StepResult.isTestDraw : StepResult → Bool
  | .ok smp => smp.kind == SampleKind.test
  | .exhausted => false

/-- `true` iff the call returned a train episode. -/
def StepResult.isTrainDraw : StepResult → Bool
  | .ok smp => smp.kind == SampleKind.train
  | .exhausted => false

/-- The `sample_num` metadata of a returned episode, if any. -/
def StepResult.sampleNum : StepResult → Option ℤ
  | .ok smp => some smp.sample_num
  | .exhausted => none

/-- The lower interval bound passed to `_sample_interval`, if any. -/
def StepResult.intervalLo : StepResult → Option ℤ
  | .ok smp => some smp.lo
  | .exhausted => none

/-- The upper interval bound passed to `_sample_interval`, if any. -/
def StepResult.intervalHi : StepResult → Option ℤ
  | .ok smp => some smp.hi
  | .exhausted => none

/-- The fixed per-sweep geometry and options of `BTgymSequentialTrial`,
as they stand after `reset`: `self.train_range_row`, `self.test_range_row`,
`self.train_samples`, `self.test_samples`, `self.test_period`,
`self.total_trials`, `self.expanding`, `self.trial_start_00`, and the
abstract day-boundary lookup used when `trial_start_00` is set. -/
structure SeqConfig where
  train_range_row : ℤ
  test_range_row : ℤ
  train_samples : ℤ
  test_samples : ℤ
  test_period : ℤ
  total_trials : ℤ
  expanding : Bool
  trial_start_00 : Bool
  snap : ℤ → ℤ

/-- The mutable sampling cursor of `BTgymSequentialTrial`. -/
structure SeqState where
  trial_num : ℤ
  train_sample_num : ℤ
  test_sample_num : ℤ
  total_samples : ℤ
  train_mean_row : ℤ
  test_mean_row : ℤ
deriving DecidableEq

/-- Lines 430-446: the train draw.  Increments `train_sample_num` and
`total_samples` and samples from `[0, train_mean_row + train_range_row/2]`
(expanding) or `[train_mean_row - train_range_row/2,
train_mean_row + train_range_row/2]` (sliding). -/
def trainDraw (cfg : SeqConfig) (s : SeqState) : StepResult × SeqState :=
  let s1 : SeqState :=
    { s with train_sample_num := s.train_sample_num + 1,
             total_samples := s.total_samples + 1 }
  let lo : ℤ :=
    if cfg.expanding then 0 else s1.train_mean_row - half cfg.train_range_row
  ( StepResult.ok
      { lo := lo,
        hi := s1.train_mean_row + half cfg.train_range_row,
        kind := SampleKind.train,
        trial_num := s1.trial_num,
        sample_num := s1.train_sample_num },
    s1 )

/-- Lines 382-392: a test draw.  Increments `test_sample_num` and samples
uniformly from `[test_mean_row - test_range_row/2,
test_mean_row + test_range_row/2]`. -/
def testDraw (cfg : SeqConfig) (s : SeqState) : StepResult × SeqState :=
  let s1 : SeqState := { s with test_sample_num := s.test_sample_num + 1 }
  ( StepResult.ok
      { lo := s1.test_mean_row - half cfg.test_range_row,
        hi := s1.test_mean_row + half cfg.test_range_row,
        kind := SampleKind.test,
        trial_num := s1.trial_num,
        sample_num := s1.test_sample_num },
    s1 )

/-- Lines 399-401: the three cursor mutations performed on a trial advance
before the exhaustion assert. -/
def advanceCursor (cfg : SeqConfig) (s : SeqState) : SeqState :=
  { s with trial_num := s.trial_num + 1,
           train_sample_num := 0,
           train_mean_row := s.train_mean_row + cfg.test_range_row }

/-- Lines 405-410 (also 311-315 in `reset`): the `trial_start_00` day
re-snap of the train window. -/
def resnap (cfg : SeqConfig) (s : SeqState) : SeqState :=
  if cfg.trial_start_00 then
    { s with train_mean_row :=
        cfg.snap (s.train_mean_row - half cfg.train_range_row + 1) +
          half cfg.train_range_row }
  else s

/-- Line 411 (also 319 in `reset`):
`test_mean_row = train_mean_row + int((train_range_row + test_range_row)/2) + 1`. -/
def setTestMean (cfg : SeqConfig) (s : SeqState) : SeqState :=
  { s with test_mean_row :=
      s.train_mean_row + half (cfg.train_range_row + cfg.test_range_row) + 1 }

/-- Lines 397-446: trial-advance check followed by a train draw.  When the
train quota is met the cursor is advanced first (lines 399-401); the
exhaustion assert at line 402 fires after those mutations. -/
def maybeAdvanceAndDraw (cfg : SeqConfig) (s : SeqState) : StepResult × SeqState :=
  if cfg.train_samples ≤ s.train_sample_num then
    let s1 := advanceCursor cfg s
    if cfg.total_trials < s1.trial_num then (StepResult.exhausted, s1)
    else trainDraw cfg (setTestMean cfg (resnap cfg s1))
  else trainDraw cfg s

/-- `_trial_sample_sequential` (lines 376-446).  The test-phase check at
line 379 guards the test draw; when the test quota is already spent the
test counter is reset to zero and control falls through to the
trial-advance check. -/
def step (cfg : SeqConfig) (s : SeqState) : StepResult × SeqState :=
  if s.train_sample_num ≠ 0 ∧ s.train_sample_num % cfg.test_period = 0 then
    if s.test_sample_num < cfg.test_samples then testDraw cfg s
    else maybeAdvanceAndDraw cfg { s with test_sample_num := 0 }
  else maybeAdvanceAndDraw cfg s

/-- `n` iterated `_trial_sample_sequential` calls, keeping the cursor. -/
def iterState (cfg : SeqConfig) : ℕ → SeqState → SeqState
  | 0, s => s
  | n + 1, s => (step cfg (iterState cfg n s)).2

/-- Test-interval start row, `test_mean_row - int(test_range_row/2)`
(line 387). -/
def testStartRow (cfg : SeqConfig) (s : SeqState) : ℤ :=
  s.test_mean_row - half cfg.test_range_row

/-- Test-interval end row, `test_mean_row + int(test_range_row/2)`
(line 388). -/
def testEndRow (cfg : SeqConfig) (s : SeqState) : ℤ :=
  s.test_mean_row + half cfg.test_range_row

/-- Train-interval end row, `train_mean_row + int(train_range_row/2)`
(lines 435, 440). -/
def trainEndRow (cfg : SeqConfig) (s : SeqState) : ℤ :=
  s.train_mean_row + half cfg.train_range_row

/-- The configuration a `BTgymSequentialTrial` instance carries into
`reset`: dataset size and timeframe, the configured calendar ranges
(in whole seconds, `timedelta.total_seconds()`), episode length in rows,
the explicitly configured per-trial quotas and schedule, Beta-distribution
parameters, mode flags, and the abstract day-boundary lookup. -/
structure Cfg where
  data_rows : ℤ
  timeframe : ℤ
  train_range_sec : ℤ
  test_range_sec : ℤ
  episode_num_records : ℤ
  train_samples_cfg : ℤ
  test_samples : ℤ
  test_period : ℤ
  b_alpha : ℚ
  b_beta : ℚ
  trial_start_00 : Bool
  expanding : Bool
  snap : ℤ → ℤ

/-- The `assert` failures `BTgymSequentialTrial.reset` (and
`BTgymRandomTrial.reset`) can raise, in program order. -/
inductive ResetError where
  | outer_space_jump
  | cardinality_below_one
  | train_samples_below_one
  | test_samples_negative
  | beta_nonpositive
deriving DecidableEq

/-- Line 266: `train_range_row = int(train_range_delta.total_seconds() /
(timeframe * 60))`. -/
def trainRangeRowOf (c : Cfg) : ℤ := pyDiv c.train_range_sec (c.timeframe * 60)

/-- Line 269: `test_range_row = int(test_range_delta.total_seconds() /
(timeframe * 60))`. -/
def testRangeRowOf (c : Cfg) : ℤ := pyDiv c.test_range_sec (c.timeframe * 60)

/-- Lines 273-275: `total_trials = int((data.shape[0] - train_range_row) /
test_range_row)`. -/
def totalTrialsOf (c : Cfg) : ℤ :=
  pyDiv (c.data_rows - trainRangeRowOf c) (testRangeRowOf c)

/-- Line 281: `train_samples = int(total_steps / (total_trials *
episode_num_records / skip_frame))`.  Under exact arithmetic
`total_steps / ((total_trials * episode_num_records) / skip_frame)
= (total_steps * skip_frame) / (total_trials * episode_num_records)`,
so the truncated value is `pyDiv` of the right-hand side. -/
def inferredTrainSamples (c : Cfg) (total_steps skip_frame : ℤ) : ℤ :=
  pyDiv (total_steps * skip_frame) (totalTrialsOf c * c.episode_num_records)

/-- The `SeqConfig` view a successful `reset` leaves on the object: the
geometry of lines 266-275 plus line 281's inferred `train_samples` when
`total_steps > 0` (the explicitly configured value otherwise), with the
remaining options carried over unchanged. -/
def resetCfg (c : Cfg) (ts skip_frame : ℤ) : SeqConfig :=
  { train_range_row := trainRangeRowOf c,
    test_range_row := testRangeRowOf c,
    train_samples :=
      if 0 < ts then inferredTrainSamples c ts skip_frame
      else c.train_samples_cfg,
    test_samples := c.test_samples,
    test_period := c.test_period,
    total_trials := totalTrialsOf c,
    expanding := c.expanding,
    trial_start_00 := c.trial_start_00,
    snap := c.snap }

/-- Line 294: the starting trial,
`trial_num = int(total_trials * global_step / total_steps)`. -/
def resetStartTrial (c : Cfg) (gs ts : ℤ) : ℤ :=
  pyDiv (totalTrialsOf c * gs) ts

/-- Lines 294-319: the cursor a successful `reset` leaves on the object:
starting trial, re-seeded annealing counter
`total_samples = trial_num * train_samples`, zeroed per-trial counters,
the first train mean `int(train_range_row/2) + test_range_row * trial_num`
(optionally day re-snapped), and the derived test mean. -/
def resetState (c : Cfg) (gs ts skip_frame : ℤ) : SeqState :=
  let cfg := resetCfg c ts skip_frame
  let tn := resetStartTrial c gs ts
  setTestMean cfg (resnap cfg
    { trial_num := tn, train_sample_num := 0, test_sample_num := 0,
      total_samples := tn * cfg.train_samples,
      train_mean_row := half cfg.train_range_row + cfg.test_range_row * tn,
      test_mean_row := 0 })

/-- Lines 265-374 of `BTgymSequentialTrial.reset`, after `global_step` and
`total_steps` have been fixed: geometry computation, the configuration
asserts (lines 277, 287, 288, 290) in program order, and the initial
cursor. -/
def resetBody (c : Cfg) (gs ts skip_frame : ℤ) :
    Except ResetError (SeqConfig × SeqState) :=
  if ¬ 0 < totalTrialsOf c then .error .cardinality_below_one
  else if ¬ 0 < (resetCfg c ts skip_frame).train_samples then
    .error .train_samples_below_one
  else if ¬ 0 ≤ c.test_samples then .error .test_samples_negative
  else if ¬ (0 < c.b_alpha ∧ 0 < c.b_beta) then .error .beta_nonpositive
  else .ok (resetCfg c ts skip_frame, resetState c gs ts skip_frame)

/-- `BTgymSequentialTrial.reset(global_step, total_steps, skip_frame)`
(lines 239-374).  With `total_steps` given, `global_step < total_steps` is
asserted; with `total_steps=None` the sweep starts from zero with
`total_steps = -1`. -/
def reset (c : Cfg) (global_step : ℤ) (total_steps : Option ℤ)
    (skip_frame : ℤ) : Except ResetError (SeqConfig × SeqState) :=
  match total_steps with
  | some ts =>
      if global_step < ts then resetBody c global_step ts skip_frame
      else .error .outer_space_jump
  | none => resetBody c 0 (-1) skip_frame

/-- Configuration consumed by `BTgymRandomTrial`: dataset size, the three
calendar spans (whole seconds: full dataset span `data_range_delta`, trial
support `train_range_delta`, stride `test_range_delta`) and the per-trial
episode quota. -/
structure RandCfg where
  data_rows : ℤ
  data_range_sec : ℤ
  train_range_sec : ℤ
  test_range_sec : ℤ
  train_samples : ℤ
deriving DecidableEq

/-- Mutable cursor of `BTgymRandomTrial`. -/
structure RandState where
  trial_num : ℤ
  sample_num : ℤ
  trial_mean_row : ℤ
deriving DecidableEq

/-- Row interval passed to `_sample_interval` by `_trial_sample_random`. -/
structure RandSample where
  lo : ℤ
  hi : ℤ
deriving DecidableEq

/-- Line 508: `total_trials = int((data_range_delta - train_range_delta) /
test_range_delta)` — timedelta division is exact, then truncation. -/
def randTotalTrials (c : RandCfg) : ℤ :=
  ratTrunc (((c.data_range_sec - c.train_range_sec : ℤ) : ℚ) /
    ((c.test_range_sec : ℤ) : ℚ))

/-- Line 516: `trial_range_row = int(data.shape[0] *
(train_range_delta / data_range_delta))`. -/
def randTrialRangeRow (c : RandCfg) : ℤ :=
  ratTrunc ((c.data_rows : ℚ) *
    ((c.train_range_sec : ℚ) / (c.data_range_sec : ℚ)))

/-- Line 519: `trial_stride_row = int(data.shape[0] *
(test_range_delta / data_range_delta))`. -/
def randTrialStrideRow (c : RandCfg) : ℤ :=
  ratTrunc ((c.data_rows : ℚ) *
    ((c.test_range_sec : ℚ) / (c.data_range_sec : ℚ)))

/-- Lines 524-525 (and 583-584): `trial_mean_row = int(trial_range_row/2) +
trial_stride_row * int(total_trials * random.random())`, with the fresh
uniform draw `u ∈ [0, 1)` passed in explicitly. -/
def randTrialMeanRow (c : RandCfg) (u : ℚ) : ℤ :=
  half (randTrialRangeRow c) +
    randTrialStrideRow c * ratTrunc ((randTotalTrials c : ℚ) * u)

/-- `BTgymRandomTrial.reset` (lines 494-545): asserts `total_trials > 0`,
then places the first trial at a uniformly random stride multiple. -/
def randReset (c : RandCfg) (u : ℚ) : Except ResetError RandState :=
  if ¬ 0 < randTotalTrials c then .error .cardinality_below_one
  else .ok { trial_num := 0, sample_num := 0,
             trial_mean_row := randTrialMeanRow c u }

/-- `_trial_sample_random` (lines 579-603): re-draw a fresh trial location
once the per-trial quota is spent, then draw one episode from
`[trial_mean_row - trial_range_row/2, trial_mean_row + trial_range_row/2]`.
`u` is the fresh uniform draw consumed on a trial advance. -/
def randStep (c : RandCfg) (u : ℚ) (s : RandState) : RandSample × RandState :=
  let s1 : RandState :=
    if c.train_samples ≤ s.sample_num then
      { trial_num := s.trial_num + 1, sample_num := 0,
        trial_mean_row := randTrialMeanRow c u }
    else s
  let s2 : RandState := { s1 with sample_num := s1.sample_num + 1 }
  ( { lo := s2.trial_mean_row - half (randTrialRangeRow c),
      hi := s2.trial_mean_row + half (randTrialRangeRow c) },
    s2 )

/-- `BTgymSequentialTrial.exp_decay(step, param_0, max_steps, gamma)`
(lines 189-204), over the reals: for `0 < max_steps` and
`step ≤ max_steps` it rescales `step` to `2 - step/max_steps` and returns
`exp(step'^gamma - 2^gamma) * (param_0 - 1) + 1`; past `max_steps` it
returns `1.0`; with annealing disabled (`max_steps ≤ 0`) it returns
`param_0`. -/
noncomputable def exp_decay (stp param_0 max_steps gamma : ℝ) : ℝ :=
  if 0 < max_steps then
    if stp ≤ max_steps then
      Real.exp ((2 - stp / max_steps) ^ gamma - 2 ^ gamma) * (param_0 - 1) + 1
    else 1
  else param_0

/-! ### Concrete instances used by counterexamples and witnesses -/

/-- Sliding config with an even test range (`test_range_row = 2`). -/
def cfgC1 : SeqConfig :=
  { train_range_row := 4, test_range_row := 2, train_samples := 1,
    test_samples := 0, test_period := 100, total_trials := 5,
    expanding := false, trial_start_00 := false, snap := fun r => r }

/-- Cursor of `cfgC1` after its first train draw: train quota met, test mean
as `reset`/`_trial_sample_sequential` derive it (`2 + int(6/2) + 1 = 6`). -/
def sC1 : SeqState :=
  { trial_num := 0, train_sample_num := 1, test_sample_num := 0,
    total_samples := 1, train_mean_row := 2, test_mean_row := 6 }

/-- Sliding config with an odd test range (`test_range_row = 3`). -/
def cfgC1w : SeqConfig :=
  { train_range_row := 4, test_range_row := 3, train_samples := 1,
    test_samples := 0, test_period := 100, total_trials := 5,
    expanding := false, trial_start_00 := false, snap := fun r => r }

/-- Cursor of `cfgC1w` after its first train draw (`2 + int(7/2) + 1 = 6`). -/
def sC1w : SeqState :=
  { trial_num := 0, train_sample_num := 1, test_sample_num := 0,
    total_samples := 1, train_mean_row := 2, test_mean_row := 6 }

/-- Config with both ranges odd (`train_range_row = test_range_row = 1`). -/
def cfgC2 : SeqConfig :=
  { train_range_row := 1, test_range_row := 1, train_samples := 1,
    test_samples := 0, test_period := 100, total_trials := 3,
    expanding := false, trial_start_00 := false, snap := fun r => r }

/-- Initial cursor of `cfgC2` as `reset` derives it:
`train_mean_row = int(1/2) = 0`, `test_mean_row = 0 + int(2/2) + 1 = 2`. -/
def sC2 : SeqState :=
  { trial_num := 0, train_sample_num := 0, test_sample_num := 0,
    total_samples := 0, train_mean_row := 0, test_mean_row := 2 }

/-- Config scheduling 2 test draws after every 2 train draws. -/
def cfgC4 : SeqConfig :=
  { train_range_row := 4, test_range_row := 2, train_samples := 10,
    test_samples := 2, test_period := 2, total_trials := 5,
    expanding := false, trial_start_00 := false, snap := fun r => r }

/-- Cursor of `cfgC4` right after its second train draw:
`train_sample_num = 2` is a nonzero multiple of `test_period = 2`. -/
def sC4 : SeqState :=
  { trial_num := 0, train_sample_num := 2, test_sample_num := 0,
    total_samples := 2, train_mean_row := 2, test_mean_row := 6 }

/-- Expanding-mode variant of `cfgC1`. -/
def cfgC7e : SeqConfig :=
  { train_range_row := 4, test_range_row := 2, train_samples := 1,
    test_samples := 0, test_period := 100, total_trials := 5,
    expanding := true, trial_start_00 := false, snap := fun r => r }

/-- Cursor of `cfgC7e` after its first train draw. -/
def sC7e : SeqState :=
  { trial_num := 0, train_sample_num := 1, test_sample_num := 0,
    total_samples := 1, train_mean_row := 2, test_mean_row := 6 }

/-- Single-trial config: the first trial advance exhausts the sequence. -/
def cfgC10 : SeqConfig :=
  { train_range_row := 4, test_range_row := 2, train_samples := 1,
    test_samples := 0, test_period := 100, total_trials := 0,
    expanding := false, trial_start_00 := false, snap := fun r => r }

/-- Cursor of `cfgC10` with the train quota of trial 0 spent. -/
def sC10 : SeqState :=
  { trial_num := 0, train_sample_num := 1, test_sample_num := 0,
    total_samples := 1, train_mean_row := 2, test_mean_row := 6 }

/-- A well-formed dataset configuration: 100 rows at 1-minute timeframe,
10-minute train and test ranges, 10-row episodes. -/
def cW6 : Cfg :=
  { data_rows := 100, timeframe := 1, train_range_sec := 600,
    test_range_sec := 600, episode_num_records := 10, train_samples_cfg := 7,
    test_samples := 2, test_period := 3, b_alpha := 1, b_beta := 1,
    trial_start_00 := false, expanding := false, snap := fun r => r }

/-- The geometry `reset cW6 _ (some 1000) 10` computes:
`train_range_row = test_range_row = 10`, `total_trials = int(90/10) = 9`,
`train_samples = int(1000/(9*10/10)) = 111`. -/
def cfgW6 : SeqConfig :=
  { train_range_row := 10, test_range_row := 10, train_samples := 111,
    test_samples := 2, test_period := 3, total_trials := 9,
    expanding := false, trial_start_00 := false, snap := fun r => r }

/-- The cursor `reset cW6 0 (some 1000) 10` produces. -/
def sW6 : SeqState :=
  { trial_num := 0, train_sample_num := 0, test_sample_num := 0,
    total_samples := 0, train_mean_row := 5, test_mean_row := 16 }

/-- The cursor `reset cW6 500 (some 1000) 10` produces:
`trial_num = int(9*500/1000) = 4`, `total_samples = 4*111 = 444`,
`train_mean_row = 5 + 10*4 = 45`, `test_mean_row = 45 + 10 + 1 = 56`. -/
def sW8 : SeqState :=
  { trial_num := 4, train_sample_num := 0, test_sample_num := 0,
    total_samples := 444, train_mean_row := 45, test_mean_row := 56 }

/-- Like `cW6` but with `train_samples` configured to `0`: with
`total_steps=None` the quota assert fires even though the trial
cardinality is fine. -/
def cC6x : Cfg :=
  { data_rows := 100, timeframe := 1, train_range_sec := 600,
    test_range_sec := 600, episode_num_records := 10, train_samples_cfg := 0,
    test_samples := 2, test_period := 3, b_alpha := 1, b_beta := 1,
    trial_start_00 := false, expanding := false, snap := fun r => r }

/-- Random-iterator config whose exact row ratio is `10 * 37/100 = 3.7`:
truncation gives 3 where rounding would give 4. -/
def cR9 : RandCfg :=
  { data_rows := 10, data_range_sec := 100, train_range_sec := 37,
    test_range_sec := 10, train_samples := 5 }

/-- Well-formed random-iterator config: 100 rows, 1000-second span,
300-second trials, 100-second stride. -/
def cR9w : RandCfg :=
  { data_rows := 100, data_range_sec := 1000, train_range_sec := 300,
    test_range_sec := 100, train_samples := 5 }

/-- A `cR9w` cursor with its per-trial quota spent. -/
def sR9 : RandState :=
  { trial_num := 0, sample_num := 5, trial_mean_row := 45 }

/-! ### Arithmetic helper lemmas -/

lemma half_eq_ediv {x : ℤ} (hx : 0 ≤ x) : half x = x / 2 :=
  Int.tdiv_eq_ediv hx (by norm_num)

lemma half_add {a b : ℤ} (ha : 0 ≤ a) (hb : 0 ≤ b) :
    half (a + b) = half a + half b + a % 2 * (b % 2) := by
  rw [half_eq_ediv ha, half_eq_ediv hb, half_eq_ediv (by omega : (0:ℤ) ≤ a + b)]
  rcases Int.emod_two_eq a with h1 | h1 <;> rcases Int.emod_two_eq b with h2 | h2 <;>
    rw [h1, h2] <;> omega

lemma sub_half {x : ℤ} (hx : 0 ≤ x) : x - half x = half x + x % 2 := by
  rw [half_eq_ediv hx]; omega

lemma pyDiv_eq_floor {a b : ℤ} (ha : 0 ≤ a) (hb : 0 ≤ b) :
    pyDiv a b = ⌊(a : ℚ) / (b : ℚ)⌋ := by
  rcases hb.eq_or_lt with hb0 | hbpos
  · rw [← hb0]; simp [pyDiv]
  · rw [pyDiv, Int.tdiv_eq_ediv ha hb]
    have h1 : ((b.toNat : ℕ) : ℤ) = b := Int.toNat_of_nonneg hb
    have h2 := Rat.floor_intCast_div_natCast a b.toNat
    have hcast : ((b.toNat : ℕ) : ℚ) = (b : ℚ) := by
      exact_mod_cast congrArg (fun z : ℤ => (z : ℚ)) h1
    rw [h1, hcast] at h2
    exact h2.symm

lemma pyDiv_pos_eq_floor {a b : ℤ} (h : 1 ≤ pyDiv a b) :
    pyDiv a b = ⌊(a : ℚ) / (b : ℚ)⌋ := by
  rcases le_or_lt 0 a with ha | ha <;> rcases le_or_lt 0 b with hb | hb
  · exact pyDiv_eq_floor ha hb
  · exact absurd h (by have := Int.tdiv_nonpos ha hb.le; rw [pyDiv]; omega)
  · exact absurd h (by
      have h0 : 0 ≤ Int.tdiv (-a) b := Int.tdiv_nonneg (by omega) hb
      rw [pyDiv]
      have := Int.neg_tdiv a b
      omega)
  · have hflip : pyDiv a b = pyDiv (-a) (-b) := (Int.neg_tdiv_neg a b).symm
    rw [hflip, pyDiv_eq_floor (by omega : (0:ℤ) ≤ -a) (by omega : (0:ℤ) ≤ -b)]
    congr 1
    push_cast
    rw [neg_div_neg_eq]

lemma ratTrunc_eq_floor {q : ℚ} (hq : 0 ≤ q) : ratTrunc q = ⌊q⌋ := by
  rw [ratTrunc, if_neg (not_lt.mpr hq)]

/-! ### Shape lemmas for `_trial_sample_sequential` -/

lemma step_of_no_test {cfg : SeqConfig} {s : SeqState}
    (h : ¬ (s.train_sample_num ≠ 0 ∧ s.train_sample_num % cfg.test_period = 0)) :
    step cfg s = maybeAdvanceAndDraw cfg s := by
  rw [step, if_neg h]

lemma step_of_test_spent {cfg : SeqConfig} {s : SeqState}
    (h : s.train_sample_num ≠ 0 ∧ s.train_sample_num % cfg.test_period = 0)
    (h2 : ¬ s.test_sample_num < cfg.test_samples) :
    step cfg s = maybeAdvanceAndDraw cfg { s with test_sample_num := 0 } := by
  rw [step, if_pos h, if_neg h2]

lemma step_of_test_draw {cfg : SeqConfig} {s : SeqState}
    (h : s.train_sample_num ≠ 0 ∧ s.train_sample_num % cfg.test_period = 0)
    (h2 : s.test_sample_num < cfg.test_samples) :
    step cfg s = testDraw cfg s := by
  rw [step, if_pos h, if_pos h2]

lemma maybeAdvance_of_quota {cfg : SeqConfig} {s : SeqState}
    (hq : cfg.train_samples ≤ s.train_sample_num)
    (hok : s.trial_num + 1 ≤ cfg.total_trials) :
    maybeAdvanceAndDraw cfg s =
      trainDraw cfg (setTestMean cfg (resnap cfg (advanceCursor cfg s))) := by
  rw [maybeAdvanceAndDraw, if_pos hq, if_neg (by simp [advanceCursor]; omega)]

lemma maybeAdvance_of_exhausted {cfg : SeqConfig} {s : SeqState}
    (hq : cfg.train_samples ≤ s.train_sample_num)
    (hbad : cfg.total_trials < s.trial_num + 1) :
    maybeAdvanceAndDraw cfg s = (StepResult.exhausted, advanceCursor cfg s) := by
  rw [maybeAdvanceAndDraw, if_pos hq, if_pos (by simp [advanceCursor]; omega)]

lemma maybeAdvance_of_no_quota {cfg : SeqConfig} {s : SeqState}
    (hq : s.train_sample_num < cfg.train_samples) :
    maybeAdvanceAndDraw cfg s = trainDraw cfg s := by
  rw [maybeAdvanceAndDraw, if_neg (not_le.mpr hq)]

lemma setTestMean_inv (cfg : SeqConfig) (x : SeqState) :
    (setTestMean cfg x).test_mean_row = (setTestMean cfg x).train_mean_row +
      half (cfg.train_range_row + cfg.test_range_row) + 1 := by
  simp [setTestMean]

/-! ### Shape lemmas for `reset` -/

lemma resetBody_ok_elim {c : Cfg} {gs ts sf : ℤ} {cfg : SeqConfig}
    {s : SeqState} (h : resetBody c gs ts sf = .ok (cfg, s)) :
    cfg = resetCfg c ts sf ∧ s = resetState c gs ts sf ∧
      0 < totalTrialsOf c ∧ 0 < cfg.train_samples ∧
      0 ≤ c.test_samples ∧ 0 < c.b_alpha ∧ 0 < c.b_beta := by
  unfold resetBody at h
  split_ifs at h with h1 h2 h3 h4
  simp only [Except.ok.injEq, Prod.mk.injEq] at h
  exact ⟨h.1.symm, h.2.symm, h1, h.1 ▸ h2, h3, h4.1, h4.2⟩

lemma reset_some_ok_elim {c : Cfg} {gs ts sf : ℤ} {cfg : SeqConfig}
    {s : SeqState} (h : reset c gs (some ts) sf = .ok (cfg, s)) :
    gs < ts ∧ cfg = resetCfg c ts sf ∧ s = resetState c gs ts sf ∧
      0 < totalTrialsOf c ∧ 0 < cfg.train_samples := by
  rw [reset] at h
  split_ifs at h with h1
  have h2 := resetBody_ok_elim h
  exact ⟨h1, h2.1, h2.2.1, h2.2.2.1, h2.2.2.2.1⟩

lemma reset_none_ok_elim {c : Cfg} {gs sf : ℤ} {cfg : SeqConfig}
    {s : SeqState} (h : reset c gs none sf = .ok (cfg, s)) :
    cfg = resetCfg c (-1) sf ∧ s = resetState c 0 (-1) sf ∧
      0 < totalTrialsOf c ∧ 0 < cfg.train_samples := by
  rw [reset] at h
  have h2 := resetBody_ok_elim h
  exact ⟨h2.1, h2.2.1, h2.2.2.1, h2.2.2.2.1⟩

lemma reset_ok_elim {c : Cfg} {gs sf : ℤ} {ots : Option ℤ} {cfg : SeqConfig}
    {s : SeqState} (h : reset c gs ots sf = .ok (cfg, s)) :
    ∃ gs' ts', cfg = resetCfg c ts' sf ∧ s = resetState c gs' ts' sf ∧
      0 < totalTrialsOf c ∧ 0 < cfg.train_samples := by
  rcases ots with _ | ts
  · have h2 := reset_none_ok_elim h
    exact ⟨0, -1, h2⟩
  · have h2 := reset_some_ok_elim h
    exact ⟨gs, ts, h2.2⟩

lemma step_advance_eq {cfg : SeqConfig} {s : SeqState}
    (hNoTest : ¬ (s.train_sample_num ≠ 0 ∧
      s.train_sample_num % cfg.test_period = 0 ∧
      s.test_sample_num < cfg.test_samples))
    (hQuota : cfg.train_samples ≤ s.train_sample_num)
    (hOk : s.trial_num + 1 ≤ cfg.total_trials) :
    ∃ t : ℤ, step cfg s = trainDraw cfg (setTestMean cfg (resnap cfg
      (advanceCursor cfg { s with test_sample_num := t }))) := by
  by_cases hc : s.train_sample_num ≠ 0 ∧ s.train_sample_num % cfg.test_period = 0
  · have h2 : ¬ s.test_sample_num < cfg.test_samples :=
      fun hlt => hNoTest ⟨hc.1, hc.2, hlt⟩
    exact ⟨0, by
      rw [step_of_test_spent hc h2]
      exact maybeAdvance_of_quota hQuota hOk⟩
  · exact ⟨s.test_sample_num, by
      rw [step_of_no_test hc, maybeAdvance_of_quota hQuota hOk]⟩

lemma step_exhaust_eq {cfg : SeqConfig} {s : SeqState}
    (hNoTest : ¬ (s.train_sample_num ≠ 0 ∧
      s.train_sample_num % cfg.test_period = 0 ∧
      s.test_sample_num < cfg.test_samples))
    (hQuota : cfg.train_samples ≤ s.train_sample_num)
    (hBad : cfg.total_trials < s.trial_num + 1) :
    ∃ t : ℤ, step cfg s =
      (StepResult.exhausted, advanceCursor cfg { s with test_sample_num := t }) := by
  by_cases hc : s.train_sample_num ≠ 0 ∧ s.train_sample_num % cfg.test_period = 0
  · have h2 : ¬ s.test_sample_num < cfg.test_samples :=
      fun hlt => hNoTest ⟨hc.1, hc.2, hlt⟩
    exact ⟨0, by
      rw [step_of_test_spent hc h2]
      exact maybeAdvance_of_exhausted hQuota hBad⟩
  · exact ⟨s.test_sample_num, by
      rw [step_of_no_test hc]
      exact maybeAdvance_of_exhausted hQuota hBad⟩

lemma maybeAdvance_not_test (cfg : SeqConfig) (x : SeqState) :
    (maybeAdvanceAndDraw cfg x).1.isTestDraw = false := by
  simp only [maybeAdvanceAndDraw]
  split
  · split
    · rfl
    · simp [trainDraw, StepResult.isTestDraw]
  · simp [trainDraw, StepResult.isTestDraw]

lemma maybeAdvance_train_of {cfg : SeqConfig} {x : SeqState}
    (h : x.train_sample_num < cfg.train_samples ∨
      x.trial_num + 1 ≤ cfg.total_trials) :
    (maybeAdvanceAndDraw cfg x).1.isTrainDraw = true := by
  by_cases hq : cfg.train_samples ≤ x.train_sample_num
  · have hok : x.trial_num + 1 ≤ cfg.total_trials := by
      rcases h with h | h
      · omega
      · exact h
    rw [maybeAdvance_of_quota hq hok]
    simp [trainDraw, StepResult.isTrainDraw]
  · rw [maybeAdvance_of_no_quota (not_le.mp hq)]
    simp [trainDraw, StepResult.isTrainDraw]

lemma iter_test_phase {cfg : SeqConfig} {s : SeqState}
    (h0 : s.train_sample_num ≠ 0)
    (hmod : s.train_sample_num % cfg.test_period = 0)
    (hts0 : s.test_sample_num = 0) :
    ∀ k : ℕ, (k : ℤ) ≤ cfg.test_samples →
      iterState cfg k s = { s with test_sample_num := (k : ℤ) } := by
  intro k
  induction k with
  | zero =>
      intro _
      rw [iterState]
      rw [show ((0 : ℕ) : ℤ) = s.test_sample_num from hts0.symm]
  | succ n ih =>
      intro hk
      have hlt : (n : ℤ) < cfg.test_samples := by push_cast at hk; omega
      rw [iterState, ih (le_of_lt hlt)]
      rw [@step_of_test_draw cfg { s with test_sample_num := (n : ℤ) }
        ⟨h0, hmod⟩ hlt]
      simp [testDraw]

lemma resnap_trial_num (cfg : SeqConfig) (x : SeqState) :
    (resnap cfg x).trial_num = x.trial_num := by
  rw [resnap]; split <;> rfl

lemma resnap_total_samples (cfg : SeqConfig) (x : SeqState) :
    (resnap cfg x).total_samples = x.total_samples := by
  rw [resnap]; split <;> rfl

lemma setTestMean_trial_num (cfg : SeqConfig) (x : SeqState) :
    (setTestMean cfg x).trial_num = x.trial_num := rfl

lemma setTestMean_total_samples (cfg : SeqConfig) (x : SeqState) :
    (setTestMean cfg x).total_samples = x.total_samples := rfl

lemma resetState_trial_num (c : Cfg) (gs ts sf : ℤ) :
    (resetState c gs ts sf).trial_num = resetStartTrial c gs ts := by
  simp only [resetState, setTestMean_trial_num, resnap_trial_num]

lemma resetState_total_samples (c : Cfg) (gs ts sf : ℤ) :
    (resetState c gs ts sf).total_samples =
      resetStartTrial c gs ts * (resetCfg c ts sf).train_samples := by
  simp only [resetState, setTestMean_total_samples, resnap_total_samples]

/-! ### Claim theorems -/

/-- C1 (corrected).  Sequential mode, `trial_start_00` disabled: on a trial
advance the new test interval starts at
`test_end_row(n) + test_range_row % 2`, i.e. exactly one row after the old
test interval ends when `test_range_row` is odd, but *at* the old test end
row (a one-row overlap) when `test_range_row` is even.  The claim's
`test_start_row(n+1) == test_end_row(n) + 1` therefore holds only for odd
`test_range_row`. -/
theorem c1_consecutive_test_windows (cfg : SeqConfig) (s : SeqState)
    (hNoTest : ¬ (s.train_sample_num ≠ 0 ∧
      s.train_sample_num % cfg.test_period = 0 ∧
      s.test_sample_num < cfg.test_samples))
    (hQuota : cfg.train_samples ≤ s.train_sample_num)
    (hOk : s.trial_num + 1 ≤ cfg.total_trials)
    (hSnap : cfg.trial_start_00 = false)
    (hter : 0 ≤ cfg.test_range_row)
    (hInv : s.test_mean_row = s.train_mean_row +
      half (cfg.train_range_row + cfg.test_range_row) + 1) :
    testStartRow cfg (step cfg s).2 =
      testEndRow cfg s + cfg.test_range_row % 2 := by
  obtain ⟨t, he⟩ := step_advance_eq hNoTest hQuota hOk
  have h2 := sub_half hter
  rw [he]
  simp [trainDraw, setTestMean, resnap, hSnap, advanceCursor, testStartRow,
    testEndRow, hInv]
  omega

/-- C1 counterexample: with `test_range_row = 2` (even) and day re-snap
disabled, a trial advance puts the new test start *on* the previous test
end row, not one past it. -/
theorem c1_even_range_overlap :
    cfgC1.trial_start_00 = false ∧
    cfgC1.train_samples ≤ sC1.train_sample_num ∧
    sC1.trial_num + 1 ≤ cfgC1.total_trials ∧
    sC1.test_mean_row = sC1.train_mean_row +
      half (cfgC1.train_range_row + cfgC1.test_range_row) + 1 ∧
    testStartRow cfgC1 (step cfgC1 sC1).2 = testEndRow cfgC1 sC1 ∧
    ¬ testStartRow cfgC1 (step cfgC1 sC1).2 = testEndRow cfgC1 sC1 + 1 := by
  decide

/-- C1 witness: the corrected adjacency evaluated on a concrete advance
with an odd test range. -/
theorem c1_adjacency_witness :
    (cfgC1w.train_samples ≤ sC1w.train_sample_num ∧
      sC1w.trial_num + 1 ≤ cfgC1w.total_trials ∧
      cfgC1w.trial_start_00 = false) ∧
    testStartRow cfgC1w (step cfgC1w sC1w).2 =
      testEndRow cfgC1w sC1w + cfgC1w.test_range_row % 2 :=
  ⟨by decide, c1_consecutive_test_windows cfgC1w sC1w (by decide) (by decide)
    (by decide) (by decide) (by decide) (by decide)⟩

/-- C2 (corrected).  The relation `test_mean_row = train_mean_row +
int((train_range_row + test_range_row)/2) + 1` is established by `reset`
and re-established by every successful trial advance; under it,
`test_start_row = train_end_row + 1 + (train_range_row % 2) *
(test_range_row % 2)` — the test interval starts exactly one row after the
train interval ends unless *both* ranges are odd, in which case a one-row
gap separates them.  The claim's unconditional
`train_end_row + 1 == test_start_row` fails in the both-odd case. -/
theorem c2_train_test_boundary :
    (∀ (c : Cfg) (gs sf : ℤ) (ots : Option ℤ) (cfg : SeqConfig)
        (s : SeqState), reset c gs ots sf = .ok (cfg, s) →
        s.test_mean_row = s.train_mean_row +
          half (cfg.train_range_row + cfg.test_range_row) + 1) ∧
    (∀ (cfg : SeqConfig) (s : SeqState),
        ¬ (s.train_sample_num ≠ 0 ∧
          s.train_sample_num % cfg.test_period = 0 ∧
          s.test_sample_num < cfg.test_samples) →
        cfg.train_samples ≤ s.train_sample_num →
        s.trial_num + 1 ≤ cfg.total_trials →
        (step cfg s).2.test_mean_row = (step cfg s).2.train_mean_row +
          half (cfg.train_range_row + cfg.test_range_row) + 1) ∧
    (∀ (cfg : SeqConfig) (s : SeqState),
        0 ≤ cfg.train_range_row → 0 ≤ cfg.test_range_row →
        s.test_mean_row = s.train_mean_row +
          half (cfg.train_range_row + cfg.test_range_row) + 1 →
        testStartRow cfg s = trainEndRow cfg s + 1 +
          cfg.train_range_row % 2 * (cfg.test_range_row % 2)) := by
  refine ⟨?_, ?_, ?_⟩
  · intro c gs sf ots cfg s h
    obtain ⟨gs', ts', hcfg, hs, _, _⟩ := reset_ok_elim h
    rw [hs, hcfg]
    exact setTestMean_inv _ _
  · intro cfg s hNoTest hQuota hOk
    obtain ⟨t, he⟩ := step_advance_eq hNoTest hQuota hOk
    rw [he]
    simp only [trainDraw]
    exact setTestMean_inv _ _
  · intro cfg s htrr hter hInv
    rw [testStartRow, trainEndRow, hInv, half_add htrr hter]
    ring

/-- C3 (confirmed).  For a ready iterator with no pending test draws, the
first `sample()` call at which `train_sample_num` has reached
`train_samples` advances `trial_num` by exactly 1 and resets
`train_sample_num` to 0 (the same call's train draw then increments it, so
the call returns train sample #1 of the new trial); and when the advance
would push `trial_num` past `total_trials` the call raises the
sequence-exhausted error instead of wrapping around. -/
theorem c3_advance_or_exhaust (cfg : SeqConfig) (s : SeqState)
    (hNoTest : ¬ (s.train_sample_num ≠ 0 ∧
      s.train_sample_num % cfg.test_period = 0 ∧
      s.test_sample_num < cfg.test_samples))
    (hQuota : cfg.train_samples ≤ s.train_sample_num) :
    (step cfg s).2.trial_num = s.trial_num + 1 ∧
    (advanceCursor cfg s).train_sample_num = 0 ∧
    (s.trial_num + 1 ≤ cfg.total_trials →
      (step cfg s).2.train_sample_num = 1 ∧
      (step cfg s).1.isTrainDraw = true ∧
      (step cfg s).1.sampleNum = some 1) ∧
    (cfg.total_trials < s.trial_num + 1 →
      (step cfg s).1 = StepResult.exhausted) := by
  by_cases hOk : s.trial_num + 1 ≤ cfg.total_trials
  · obtain ⟨t, he⟩ := step_advance_eq hNoTest hQuota hOk
    rw [he]
    refine ⟨?_, by simp [advanceCursor], fun _ => ⟨?_, ?_, ?_⟩, fun hbad => absurd hOk (by omega)⟩ <;>
      simp [trainDraw, setTestMean, resnap, advanceCursor,
        StepResult.isTrainDraw, StepResult.sampleNum] <;>
      split <;> simp
  · obtain ⟨t, he⟩ := step_exhaust_eq hNoTest hQuota (by omega)
    rw [he]
    exact ⟨by simp [advanceCursor], by simp [advanceCursor],
      fun hok => absurd hok hOk, fun _ => rfl⟩

/-- C3 witness: a concrete quota-met call advances the trial and returns
train sample #1; the cursor of `cfgC10` shows the exhaustion raise. -/
theorem c3_advance_witness :
    (cfgC1w.train_samples ≤ sC1w.train_sample_num ∧
      sC1w.trial_num + 1 ≤ cfgC1w.total_trials) ∧
    ((step cfgC1w sC1w).2.trial_num = sC1w.trial_num + 1 ∧
      (step cfgC1w sC1w).2.train_sample_num = 1 ∧
      (step cfgC1w sC1w).1.isTrainDraw = true) :=
  ⟨by decide,
    (c3_advance_or_exhaust cfgC1w sC1w (by decide) (by decide)).1,
    ((c3_advance_or_exhaust cfgC1w sC1w (by decide) (by decide)).2.2.1
      (by decide)).1,
    ((c3_advance_or_exhaust cfgC1w sC1w (by decide) (by decide)).2.2.1
      (by decide)).2.1⟩

/-- C4 (confirmed).  Test scheduling: a `sample()` call returns a test
episode exactly when, at call entry, `train_sample_num != 0`,
`train_sample_num % test_period == 0` and `test_sample_num < test_samples`;
and from a test-phase entry state, the first `test_samples` calls return
test episodes with `sample_num` counting `1..test_samples`, after which
the next call returns a train episode (provided the trial sequence is not
exhausted at that point). -/
theorem c4_test_schedule (cfg : SeqConfig) (s : SeqState)
    (_hT : 1 ≤ cfg.test_period)
    (h0 : s.train_sample_num ≠ 0)
    (hmod : s.train_sample_num % cfg.test_period = 0)
    (hts0 : s.test_sample_num = 0)
    (hsamp : 0 ≤ cfg.test_samples)
    (hNoExh : s.train_sample_num < cfg.train_samples ∨
      s.trial_num + 1 ≤ cfg.total_trials) :
    (∀ x : SeqState, (step cfg x).1.isTestDraw = true ↔
        (x.train_sample_num ≠ 0 ∧ x.train_sample_num % cfg.test_period = 0 ∧
          x.test_sample_num < cfg.test_samples)) ∧
    (∀ k : ℕ, (k : ℤ) < cfg.test_samples →
        (step cfg (iterState cfg k s)).1 = StepResult.ok
          { lo := s.test_mean_row - half cfg.test_range_row,
            hi := s.test_mean_row + half cfg.test_range_row,
            kind := SampleKind.test, trial_num := s.trial_num,
            sample_num := (k : ℤ) + 1 }) ∧
    (step cfg (iterState cfg cfg.test_samples.toNat s)).1.isTrainDraw = true := by
  refine ⟨?_, ?_, ?_⟩
  · intro x
    by_cases hc : x.train_sample_num ≠ 0 ∧ x.train_sample_num % cfg.test_period = 0
    · by_cases h2 : x.test_sample_num < cfg.test_samples
      · rw [step_of_test_draw hc h2]
        exact ⟨fun _ => ⟨hc.1, hc.2, h2⟩, fun _ => rfl⟩
      · rw [step_of_test_spent hc h2, maybeAdvance_not_test]
        exact ⟨fun h => absurd h Bool.false_ne_true,
          fun hcond => absurd hcond.2.2 h2⟩
    · rw [step_of_no_test hc, maybeAdvance_not_test]
      exact ⟨fun h => absurd h Bool.false_ne_true,
        fun hcond => absurd ⟨hcond.1, hcond.2.1⟩ hc⟩
  · intro k hk
    rw [iter_test_phase h0 hmod hts0 k (le_of_lt hk)]
    rw [@step_of_test_draw cfg { s with test_sample_num := (k : ℤ) }
      ⟨h0, hmod⟩ hk]
    simp [testDraw]
  · have hcast : ((cfg.test_samples.toNat : ℕ) : ℤ) = cfg.test_samples :=
      Int.toNat_of_nonneg hsamp
    rw [iter_test_phase h0 hmod hts0 cfg.test_samples.toNat (le_of_eq hcast)]
    have h2 : ¬ ((cfg.test_samples.toNat : ℕ) : ℤ) < cfg.test_samples := by
      omega
    rw [@step_of_test_spent cfg { s with test_sample_num :=
      ((cfg.test_samples.toNat : ℕ) : ℤ) } ⟨h0, hmod⟩ h2]
    exact maybeAdvance_train_of hNoExh

/-- C4 witness: with `test_period = 2`, `test_samples = 2` and the cursor
right after the second train draw, the next two calls are test draws #1
and #2 and the following call is a train draw. -/
theorem c4_schedule_witness :
    (sC4.train_sample_num ≠ 0 ∧ sC4.train_sample_num % cfgC4.test_period = 0 ∧
      sC4.test_sample_num = 0 ∧ 0 ≤ cfgC4.test_samples) ∧
    (step cfgC4 (iterState cfgC4 0 sC4)).1 = StepResult.ok
      { lo := sC4.test_mean_row - half cfgC4.test_range_row,
        hi := sC4.test_mean_row + half cfgC4.test_range_row,
        kind := SampleKind.test, trial_num := sC4.trial_num,
        sample_num := ((0 : ℕ) : ℤ) + 1 } ∧
    (step cfgC4 (iterState cfgC4 1 sC4)).1 = StepResult.ok
      { lo := sC4.test_mean_row - half cfgC4.test_range_row,
        hi := sC4.test_mean_row + half cfgC4.test_range_row,
        kind := SampleKind.test, trial_num := sC4.trial_num,
        sample_num := ((1 : ℕ) : ℤ) + 1 } ∧
    (step cfgC4 (iterState cfgC4 cfgC4.test_samples.toNat sC4)).1.isTrainDraw = true :=
  ⟨by decide,
    (c4_test_schedule cfgC4 sC4 (by decide) (by decide) (by decide)
      (by decide) (by decide) (by decide)).2.1 0 (by decide),
    (c4_test_schedule cfgC4 sC4 (by decide) (by decide) (by decide)
      (by decide) (by decide) (by decide)).2.1 1 (by decide),
    (c4_test_schedule cfgC4 sC4 (by decide) (by decide) (by decide)
      (by decide) (by decide) (by decide)).2.2⟩

/-- C7 (confirmed, with the day re-snap disabled as in the sliding/expanding
description).  A successful trial advance shifts `train_mean_row` by
exactly `test_range_row`; in expanding mode the train interval passed to
the sampler starts at row 0 while its end row
`train_mean_row + int(train_range_row/2)` grows by exactly
`test_range_row`. -/
theorem c7_sliding_expanding_shift (cfg : SeqConfig) (s : SeqState)
    (hNoTest : ¬ (s.train_sample_num ≠ 0 ∧
      s.train_sample_num % cfg.test_period = 0 ∧
      s.test_sample_num < cfg.test_samples))
    (hQuota : cfg.train_samples ≤ s.train_sample_num)
    (hOk : s.trial_num + 1 ≤ cfg.total_trials)
    (hSnap : cfg.trial_start_00 = false) :
    (cfg.expanding = false →
      (step cfg s).2.train_mean_row = s.train_mean_row + cfg.test_range_row) ∧
    (cfg.expanding = true →
      (step cfg s).1.intervalLo = some 0 ∧
      (step cfg s).1.intervalHi = some (s.train_mean_row +
        half cfg.train_range_row + cfg.test_range_row) ∧
      (step cfg s).2.train_mean_row = s.train_mean_row + cfg.test_range_row) := by
  obtain ⟨t, he⟩ := step_advance_eq hNoTest hQuota hOk
  rw [he]
  refine ⟨fun hexp => ?_, fun hexp => ?_⟩ <;>
    · simp [trainDraw, setTestMean, resnap, hSnap, advanceCursor, hexp,
        StepResult.intervalLo, StepResult.intervalHi]
      try omega

/-- C7 witness: the window shift evaluated on concrete sliding and
expanding advances. -/
theorem c7_shift_witness :
    (cfgC1w.expanding = false ∧ cfgC7e.expanding = true) ∧
    (step cfgC1w sC1w).2.train_mean_row =
      sC1w.train_mean_row + cfgC1w.test_range_row ∧
    ((step cfgC7e sC7e).1.intervalLo = some 0 ∧
      (step cfgC7e sC7e).1.intervalHi = some (sC7e.train_mean_row +
        half cfgC7e.train_range_row + cfgC7e.test_range_row)) :=
  ⟨by decide,
    (c7_sliding_expanding_shift cfgC1w sC1w (by decide) (by decide)
      (by decide) (by decide)).1 (by decide),
    ((c7_sliding_expanding_shift cfgC7e sC7e (by decide) (by decide)
      (by decide) (by decide)).2 (by decide)).1,
    ((c7_sliding_expanding_shift cfgC7e sC7e (by decide) (by decide)
      (by decide) (by decide)).2 (by decide)).2.1⟩

/-- C5 (corrected).  `exp_decay` satisfies the claimed identities at
`step = 0` (returns `param_0` exactly), past `max_steps` (returns `1.0`)
and with annealing disabled (`max_steps <= 0` returns `param_0`), but at
`step = max_steps` itself it returns
`exp(1 - 2^3.5) * (param_0 - 1) + 1`, which differs from `1.0` whenever
`param_0 ≠ 1` (the curve only lands near, not on, 1 at `max_steps`; the
exact value `1.0` is reached strictly past `max_steps`). -/
theorem c5_exp_decay_boundary (p0 M : ℝ) (hM : 0 < M) :
    exp_decay 0 p0 M 3.5 = p0 ∧
    (∀ stp : ℝ, M < stp → exp_decay stp p0 M 3.5 = 1) ∧
    (∀ stp M2 : ℝ, M2 ≤ 0 → exp_decay stp p0 M2 3.5 = p0) ∧
    exp_decay M p0 M 3.5 = Real.exp (1 - 2 ^ (3.5 : ℝ)) * (p0 - 1) + 1 ∧
    (p0 ≠ 1 → exp_decay M p0 M 3.5 ≠ 1) := by
  have h4 : exp_decay M p0 M 3.5 =
      Real.exp (1 - 2 ^ (3.5 : ℝ)) * (p0 - 1) + 1 := by
    rw [exp_decay, if_pos hM, if_pos le_rfl, div_self hM.ne']
    norm_num [Real.one_rpow]
  refine ⟨?_, ?_, ?_, h4, fun hp0 hcontra => ?_⟩
  · rw [exp_decay, if_pos hM, if_pos hM.le, zero_div, sub_zero, sub_self,
      Real.exp_zero, one_mul]
    ring
  · intro stp hstp
    rw [exp_decay, if_pos hM, if_neg (not_le.mpr hstp)]
  · intro stp M2 hM2
    rw [exp_decay, if_neg (not_lt.mpr hM2)]
  · rw [h4] at hcontra
    have h5 : Real.exp (1 - 2 ^ (3.5 : ℝ)) * (p0 - 1) = 0 := by linarith
    rcases mul_eq_zero.mp h5 with h6 | h6
    · exact absurd h6 (Real.exp_ne_zero _)
    · exact hp0 (by linarith)

/-- C5 counterexample: at `step = max_steps` the claimed value `1.0` is not
attained — `exp_decay(1, 2, 1) = exp(1 - 2^3.5) + 1 > 1`. -/
theorem c5_exp_decay_at_max_not_one : exp_decay 1 2 1 3.5 ≠ 1 := by
  have hpos := Real.exp_pos ((2 - (1 : ℝ) / 1) ^ (3.5 : ℝ) - 2 ^ (3.5 : ℝ))
  rw [exp_decay, if_pos one_pos, if_pos le_rfl]
  intro h
  nlinarith

/-- C5 witness: the start-of-schedule identity evaluated at
`param_0 = 5, max_steps = 1`. -/
theorem c5_boundary_witness : (0 : ℝ) < 1 ∧ exp_decay 0 5 1 3.5 = 5 :=
  ⟨one_pos, (c5_exp_decay_boundary 5 1 one_pos).1⟩

/-- C10 (confirmed).  The trial-exhaustion failure is not atomic: when a
`sample()` call fails because the trial sequence is exhausted, the cursor
was already mutated before the assert fired — `trial_num` has been pushed
past `total_trials`, `train_sample_num` has been reset to 0 and
`train_mean_row` has been shifted forward by `test_range_row` — so the
post-error state differs from the state at call entry. -/
theorem c10_exhaustion_not_atomic (cfg : SeqConfig) (s : SeqState)
    (hNoTest : ¬ (s.train_sample_num ≠ 0 ∧
      s.train_sample_num % cfg.test_period = 0 ∧
      s.test_sample_num < cfg.test_samples))
    (hQuota : cfg.train_samples ≤ s.train_sample_num)
    (hBad : cfg.total_trials < s.trial_num + 1) :
    (step cfg s).1 = StepResult.exhausted ∧
    (step cfg s).2.trial_num = s.trial_num + 1 ∧
    cfg.total_trials < (step cfg s).2.trial_num ∧
    (step cfg s).2.train_sample_num = 0 ∧
    (step cfg s).2.train_mean_row = s.train_mean_row + cfg.test_range_row ∧
    ¬ (step cfg s).2 = s := by
  obtain ⟨t, he⟩ := step_exhaust_eq hNoTest hQuota hBad
  rw [he]
  refine ⟨rfl, by simp [advanceCursor], by simp [advanceCursor]; omega,
    by simp [advanceCursor], by simp [advanceCursor], fun hcontra => ?_⟩
  have h2 := congrArg SeqState.trial_num hcontra
  simp [advanceCursor] at h2

/-- C10 witness: a concrete exhausting call, with the mutated-but-failed
cursor visible. -/
theorem c10_exhaustion_witness :
    (cfgC10.train_samples ≤ sC10.train_sample_num ∧
      cfgC10.total_trials < sC10.trial_num + 1) ∧
    ((step cfgC10 sC10).1 = StepResult.exhausted ∧
      (step cfgC10 sC10).2.trial_num = sC10.trial_num + 1 ∧
      cfgC10.total_trials < (step cfgC10 sC10).2.trial_num ∧
      (step cfgC10 sC10).2.train_sample_num = 0 ∧
      (step cfgC10 sC10).2.train_mean_row =
        sC10.train_mean_row + cfgC10.test_range_row ∧
      ¬ (step cfgC10 sC10).2 = sC10) :=
  ⟨by decide, c10_exhaustion_not_atomic cfgC10 sC10 (by decide) (by decide)
    (by decide)⟩

/-- C2 counterexample: with `train_range_row = test_range_row = 1` (both
odd) and the test mean exactly as `reset` computes it, the test interval
starts two rows after the train interval ends. -/
theorem c2_both_odd_gap :
    sC2.test_mean_row = sC2.train_mean_row +
      half (cfgC2.train_range_row + cfgC2.test_range_row) + 1 ∧
    ¬ trainEndRow cfgC2 sC2 + 1 = testStartRow cfgC2 sC2 := by
  decide

/-- C2 witness: the corrected boundary relation evaluated on a concrete
cursor with an even train range (where it reduces to the claimed `+ 1`). -/
theorem c2_boundary_witness :
    (0 ≤ cfgC1w.train_range_row ∧ 0 ≤ cfgC1w.test_range_row ∧
      sC1w.test_mean_row = sC1w.train_mean_row +
        half (cfgC1w.train_range_row + cfgC1w.test_range_row) + 1) ∧
    testStartRow cfgC1w sC1w = trainEndRow cfgC1w sC1w + 1 +
      cfgC1w.train_range_row % 2 * (cfgC1w.test_range_row % 2) :=
  ⟨by decide, c2_train_test_boundary.2.2 cfgC1w sC1w (by decide) (by decide)
    (by decide)⟩

/-- C6 (corrected).  On every successful Sequential `reset` the stored
geometry satisfies `total_trials = floor((dataset_row_count -
train_range_row) / test_range_row)` with `total_trials >= 1` and
`train_samples >= 1`, and with `total_steps` given (positive)
`train_samples = floor(total_steps / (total_trials * episode_num_records /
skip_frame))`; and `reset` does fail whenever `total_trials < 1`.  The
claim's "fails ... exactly when `total_trials < 1`" is too strong: `reset`
can also fail with the cardinality fine, e.g. on a non-positive
`train_samples`. -/
theorem c6_reset_geometry :
    (∀ (c : Cfg) (gs sf : ℤ) (ots : Option ℤ) (cfg : SeqConfig)
        (s : SeqState), reset c gs ots sf = .ok (cfg, s) →
        cfg.train_range_row = trainRangeRowOf c ∧
        cfg.test_range_row = testRangeRowOf c ∧
        cfg.total_trials = totalTrialsOf c ∧
        cfg.total_trials = ⌊((c.data_rows - trainRangeRowOf c : ℤ) : ℚ) /
          ((testRangeRowOf c : ℤ) : ℚ)⌋ ∧
        1 ≤ cfg.total_trials ∧ 1 ≤ cfg.train_samples) ∧
    (∀ (c : Cfg) (gs ts sf : ℤ) (cfg : SeqConfig) (s : SeqState),
        reset c gs (some ts) sf = .ok (cfg, s) → 0 < ts →
        cfg.train_samples = ⌊(ts : ℚ) / ((cfg.total_trials : ℚ) *
          (c.episode_num_records : ℚ) / (sf : ℚ))⌋) ∧
    (∀ (c : Cfg) (gs sf : ℤ) (ots : Option ℤ),
        totalTrialsOf c < 1 → exceptOk (reset c gs ots sf) = false) := by
  refine ⟨?_, ?_, ?_⟩
  · intro c gs sf ots cfg s h
    obtain ⟨gs', ts', hcfg, hs, htt, hts⟩ := reset_ok_elim h
    subst hcfg
    have heq : (resetCfg c ts' sf).total_trials = totalTrialsOf c := rfl
    refine ⟨rfl, rfl, rfl, ?_, by omega, by omega⟩
    have h1 : 1 ≤ pyDiv (c.data_rows - trainRangeRowOf c) (testRangeRowOf c) := by
      have : totalTrialsOf c = pyDiv (c.data_rows - trainRangeRowOf c)
        (testRangeRowOf c) := rfl
      omega
    exact pyDiv_pos_eq_floor h1
  · intro c gs ts sf cfg s h h0ts
    obtain ⟨hgs, hcfg, hs, htt, htsamp⟩ := reset_some_ok_elim h
    subst hcfg
    have h1 : (resetCfg c ts sf).train_samples =
        inferredTrainSamples c ts sf := by
      simp only [resetCfg, if_pos h0ts]
    rw [h1] at htsamp ⊢
    have h2 : 1 ≤ pyDiv (ts * sf)
        (totalTrialsOf c * c.episode_num_records) := by
      have : inferredTrainSamples c ts sf =
        pyDiv (ts * sf) (totalTrialsOf c * c.episode_num_records) := rfl
      omega
    rw [inferredTrainSamples, pyDiv_pos_eq_floor h2]
    have h3 : (resetCfg c ts sf).total_trials = totalTrialsOf c := rfl
    rw [h3, div_div_eq_mul_div]
    congr 1
    push_cast
    ring
  · intro c gs sf ots htt
    have hguard : ¬ 0 < totalTrialsOf c := by omega
    rcases ots with _ | ts
    · rw [reset, resetBody, if_pos hguard]; rfl
    · rw [reset]
      split_ifs
      · rw [resetBody, if_pos hguard]; rfl
      · rfl

/-- C6 counterexample: a configuration with `total_trials = 9 >= 1` whose
`reset` still fails (configured `train_samples = 0`, `total_steps=None`),
refuting "fails exactly when `total_trials < 1`". -/
theorem c6_failure_despite_cardinality :
    1 ≤ totalTrialsOf cC6x ∧
    exceptErr (reset cC6x 0 none 10) =
      some ResetError.train_samples_below_one ∧
    exceptOk (reset cC6x 0 none 10) = false := by
  decide

/-- C6 witness: a concrete successful reset with `total_steps = 1000`,
`skip_frame = 10`, checking the cardinality/quota formulas. -/
theorem c6_geometry_witness :
    reset cW6 0 (some 1000) 10 = .ok (cfgW6, sW6) ∧
    (cfgW6.total_trials = totalTrialsOf cW6 ∧ 1 ≤ cfgW6.total_trials ∧
      1 ≤ cfgW6.train_samples) ∧
    cfgW6.train_samples = ⌊(1000 : ℚ) / ((cfgW6.total_trials : ℚ) *
      (cW6.episode_num_records : ℚ) / (10 : ℚ))⌋ :=
  ⟨rfl,
    ⟨(c6_reset_geometry.1 cW6 0 10 (some 1000) cfgW6 sW6 rfl).2.2.1,
      (c6_reset_geometry.1 cW6 0 10 (some 1000) cfgW6 sW6 rfl).2.2.2.2.1,
      (c6_reset_geometry.1 cW6 0 10 (some 1000) cfgW6 sW6 rfl).2.2.2.2.2⟩,
    c6_reset_geometry.2.1 cW6 0 1000 10 cfgW6 sW6 rfl (by norm_num)⟩

/-- C8 (confirmed).  With `total_steps` given, a successful reset starts at
`trial_num = floor(total_trials * global_step / total_steps)` and re-seeds
the annealing counter as `total_samples = trial_num * train_samples`;
`global_step >= total_steps` fails the outer-space assert; with
`total_steps=None` a successful reset starts at `trial_num = 0` with
`total_samples = 0`. -/
theorem c8_reset_seeding :
    (∀ (c : Cfg) (gs ts sf : ℤ) (cfg : SeqConfig) (s : SeqState),
        reset c gs (some ts) sf = .ok (cfg, s) → 0 ≤ gs →
        s.trial_num = ⌊((cfg.total_trials * gs : ℤ) : ℚ) / ((ts : ℤ) : ℚ)⌋ ∧
        s.total_samples = s.trial_num * cfg.train_samples) ∧
    (∀ (c : Cfg) (gs ts sf : ℤ), ts ≤ gs →
        reset c gs (some ts) sf = .error ResetError.outer_space_jump) ∧
    (∀ (c : Cfg) (gs sf : ℤ) (cfg : SeqConfig) (s : SeqState),
        reset c gs none sf = .ok (cfg, s) →
        s.trial_num = 0 ∧ s.total_samples = 0) := by
  refine ⟨?_, ?_, ?_⟩
  · intro c gs ts sf cfg s h hgs0
    obtain ⟨hgs, hcfg, hs, htt, htsamp⟩ := reset_some_ok_elim h
    subst hcfg
    subst hs
    rw [resetState_trial_num, resetState_total_samples]
    have h3 : (resetCfg c ts sf).total_trials = totalTrialsOf c := rfl
    refine ⟨?_, rfl⟩
    rw [resetStartTrial, h3]
    exact pyDiv_eq_floor (mul_nonneg (by omega) hgs0) (by omega)
  · intro c gs ts sf h
    rw [reset, if_neg (not_lt.mpr h)]
  · intro c gs sf cfg s h
    obtain ⟨hcfg, hs, htt, htsamp⟩ := reset_none_ok_elim h
    subst hs
    rw [resetState_trial_num, resetState_total_samples, resetStartTrial]
    simp [pyDiv]

/-- C8 witness: resuming at `global_step = 500` of `total_steps = 1000`
lands on `trial_num = int(9*500/1000) = 4` with
`total_samples = 4 * 111`. -/
theorem c8_seeding_witness :
    (reset cW6 500 (some 1000) 10 = .ok (cfgW6, sW8) ∧ (0 : ℤ) ≤ 500) ∧
    (sW8.trial_num = ⌊((cfgW6.total_trials * 500 : ℤ) : ℚ) /
        (((1000 : ℤ) : ℚ))⌋ ∧
      sW8.total_samples = sW8.trial_num * cfgW6.train_samples) :=
  ⟨⟨rfl, by norm_num⟩,
    c8_reset_seeding.1 cW6 500 1000 10 cfgW6 sW8 rfl (by norm_num)⟩

/-- C9 (corrected).  Random-iterator geometry: `trial_range_row` and
`trial_stride_row` are the dataset-relative fractions *truncated*
(`int(...)`, i.e. `floor` on these non-negative values), not rounded to
nearest; `total_trials = floor((data_span - train_duration)/test_duration)`;
and on `reset` and on every trial advance `trial_mean_row =
floor(trial_range_row/2) + trial_stride_row * floor(total_trials * u)` for
the fresh uniform `u ∈ [0,1)`, whose multiple index lies in
`[0, total_trials)`. -/
theorem c9_random_geometry :
    (∀ c : RandCfg, 0 ≤ c.data_rows → 0 ≤ c.train_range_sec →
        0 ≤ c.test_range_sec → 0 ≤ c.data_range_sec →
        randTrialRangeRow c = ⌊(c.data_rows : ℚ) *
          ((c.train_range_sec : ℚ) / (c.data_range_sec : ℚ))⌋ ∧
        randTrialStrideRow c = ⌊(c.data_rows : ℚ) *
          ((c.test_range_sec : ℚ) / (c.data_range_sec : ℚ))⌋) ∧
    (∀ c : RandCfg, c.train_range_sec ≤ c.data_range_sec →
        0 ≤ c.test_range_sec →
        randTotalTrials c = ⌊((c.data_range_sec - c.train_range_sec : ℤ) : ℚ) /
          ((c.test_range_sec : ℤ) : ℚ)⌋) ∧
    (∀ (c : RandCfg) (u : ℚ) (s : RandState), randReset c u = .ok s →
        s.trial_num = 0 ∧ s.sample_num = 0 ∧
        s.trial_mean_row = half (randTrialRangeRow c) +
          randTrialStrideRow c * ratTrunc ((randTotalTrials c : ℚ) * u) ∧
        (0 ≤ u → u < 1 →
          ratTrunc ((randTotalTrials c : ℚ) * u) =
            ⌊(randTotalTrials c : ℚ) * u⌋ ∧
          0 ≤ ⌊(randTotalTrials c : ℚ) * u⌋ ∧
          ⌊(randTotalTrials c : ℚ) * u⌋ < randTotalTrials c)) ∧
    (∀ (c : RandCfg) (u : ℚ) (s : RandState),
        c.train_samples ≤ s.sample_num →
        (randStep c u s).2.trial_num = s.trial_num + 1 ∧
        (randStep c u s).2.sample_num = 1 ∧
        (randStep c u s).2.trial_mean_row = randTrialMeanRow c u) := by
  refine ⟨?_, ?_, ?_, ?_⟩
  · intro c h1 h2 h3 h4
    constructor
    · rw [randTrialRangeRow]
      exact ratTrunc_eq_floor (mul_nonneg (by exact_mod_cast h1)
        (div_nonneg (by exact_mod_cast h2) (by exact_mod_cast h4)))
    · rw [randTrialStrideRow]
      exact ratTrunc_eq_floor (mul_nonneg (by exact_mod_cast h1)
        (div_nonneg (by exact_mod_cast h3) (by exact_mod_cast h4)))
  · intro c hle hte
    rw [randTotalTrials]
    refine ratTrunc_eq_floor (div_nonneg ?_ ?_)
    · have : (0 : ℤ) ≤ c.data_range_sec - c.train_range_sec := by omega
      exact_mod_cast this
    · exact_mod_cast hte
  · intro c u s h
    rw [randReset] at h
    split_ifs at h with hguard
    simp only [Except.ok.injEq] at h
    subst h
    refine ⟨rfl, rfl, rfl, fun hu0 hu1 => ?_⟩
    have hc : (0 : ℚ) ≤ (randTotalTrials c : ℚ) := by exact_mod_cast hguard.le
    have h1 : (0 : ℚ) ≤ (randTotalTrials c : ℚ) * u := mul_nonneg hc hu0
    refine ⟨ratTrunc_eq_floor h1, Int.floor_nonneg.mpr h1, ?_⟩
    rw [Int.floor_lt]
    calc (randTotalTrials c : ℚ) * u
        < (randTotalTrials c : ℚ) * 1 := by
          exact mul_lt_mul_of_pos_left hu1 (by exact_mod_cast hguard)
      _ = (randTotalTrials c : ℚ) := mul_one _
  · intro c u s h
    simp [randStep, if_pos h]

/-- C9 counterexample: with a `37/100` fraction over 10 rows the code's
truncation gives `trial_range_row = 3`, while the claimed rounding would
give 4. -/
theorem c9_trunc_not_round :
    randTrialRangeRow cR9 = 3 ∧
    round ((cR9.data_rows : ℚ) *
      ((cR9.train_range_sec : ℚ) / (cR9.data_range_sec : ℚ))) = 4 ∧
    randTrialRangeRow cR9 ≠ round ((cR9.data_rows : ℚ) *
      ((cR9.train_range_sec : ℚ) / (cR9.data_range_sec : ℚ))) := by
  have h1 : randTrialRangeRow cR9 = 3 := by
    norm_num [randTrialRangeRow, ratTrunc, cR9]
  have h2 : round ((cR9.data_rows : ℚ) *
      ((cR9.train_range_sec : ℚ) / (cR9.data_range_sec : ℚ))) = 4 := by
    norm_num [round_eq, cR9]
  exact ⟨h1, h2, by rw [h1, h2]; decide⟩

/-- C9 witness: a trial advance of the random iterator re-draws the trial
location from the fresh uniform draw. -/
theorem c9_advance_witness :
    cR9w.train_samples ≤ sR9.sample_num ∧
    ((randStep cR9w (1/2) sR9).2.trial_num = sR9.trial_num + 1 ∧
      (randStep cR9w (1/2) sR9).2.sample_num = 1 ∧
      (randStep cR9w (1/2) sR9).2.trial_mean_row =
        randTrialMeanRow cR9w (1/2)) :=
  ⟨by decide, c9_random_geometry.2.2.2 cR9w (1/2) sR9 (by decide)⟩

end BTG
